import Mathlib

/-!
Verification of the request-lifecycle state machine and pagination-merge
logic of a React + GraphQL front-end (src/App.tsx).

The embedding translates the TypeScript source shallowly:

* the tagged unions `State` and `Action` become Lean inductives;
* the `reducer` switch becomes a Lean match, with the ramda lens update
  `R.over(edgeLens, R.concat(oldRepos), action)` spelled out: the new
  payload keeps every field of the incoming `data` except `edges`, which
  becomes `R.concat oldEdges newEdges`;
* `onFetchRepos` becomes a pure function from the transport outcome (the
  resolved axios response or a rejection) to the ordered trace of
  observable steps (the network fetch it issues and the actions it
  dispatches); JavaScript truthiness of the optional `cursor` string and
  the V8 rendering of `Error.prototype.stack` are modelled explicitly.
-/

namespace App

/-- One GraphQL error entry, `type Error = { type, message }` in App.tsx. -/
structure GQLError where
  type : String
  message : String
deriving DecidableEq, Repr

/-- A repository node as selected by the GET_REPOSITORIES query
(`id, name, viewerHasStarred, stargazers { totalCount }, description,
createdAt`). -/
structure RepoNode where
  id : String
  name : String
  viewerHasStarred : Bool
  stargazersTotalCount : Nat
  description : Option String
  createdAt : String
deriving DecidableEq, Repr

/-- A GraphQL connection edge wrapping a repository node; the elements of
the `edges: any[]` array in App.tsx. -/
structure RepoEdge where
  node : RepoNode
deriving DecidableEq, Repr

/-- The `pageInfo` object of the `Repositories` type in App.tsx. -/
structure PageInfo where
  endCursor : String
  hasNextPage : Bool
deriving DecidableEq, Repr

/-- `type Repositories` in App.tsx: `totalCount`, `pageInfo { endCursor,
hasNextPage }`, `edges`. -/
structure Repositories where
  totalCount : Nat
  pageInfo : PageInfo
  edges : List RepoEdge
deriving DecidableEq, Repr

/-- `type GQResponse` in App.tsx: the `data.organization` payload. -/
structure GQResponse where
  name : String
  url : String
  repositories : Repositories
deriving DecidableEq, Repr

namespace R

/-- Ramda `R.concat` on arrays (used at App.tsx:101 to merge the old
`edges` in front of the incoming page's `edges`), as structural
recursion on the first list. -/
def concat {α : Type} : List α → List α → List α
  | [], ys => ys
  | x :: xs, ys => x :: concat xs ys

end R

/-- `type State` in App.tsx: the request-lifecycle tagged union. -/
inductive State where
  | empty
  | loading
  | error (error : String)
  | success (data : GQResponse)
deriving DecidableEq, Repr

/-- `type Action` in App.tsx: the reducer events. -/
inductive Action where
  | request
  | init (data : GQResponse)
  | more (data : GQResponse)
  | error (error : String)
deriving DecidableEq, Repr

/-- `state.status === 'success'` as a Boolean discriminant test. -/
def State.isSuccess : State → Bool
  | State.success _ => true
  | _ => false

/-- The `reducer` of App.tsx:92-109, case by case on `action.type`.  The
`'more'` branch first guards on `state.status !== 'success'`, then
rebuilds the payload through the ramda edge lens: the result is the
incoming `action.data` with its `edges` replaced by
`R.concat oldEdges action.data.edges`. -/
def reducer (state : State) (action : Action) : State :=
  match action with
  | Action.request => State.loading
  | Action.init d => State.success d
  | Action.more d =>
      match state with
      | State.success old =>
          State.success
            { d with repositories :=
                { d.repositories with
                    edges := R.concat old.repositories.edges d.repositories.edges } }
      | _ => state
  | Action.error e => State.error e

/-- The arguments of one `getReposOfOrganization(organization, limit,
cursor?)` call (App.tsx:80-89). -/
structure FetchRequest where
  organization : String
  limit : Nat
  cursor : Option String
deriving DecidableEq, Repr

/-- The outcome of the awaited axios post, as `onFetchRepos` observes it:
either the promise resolves with a GraphQL body
`{ data?: { organization }, errors?: [...] }`, or it rejects and the
`catch` block receives an exception whose `.stack` string is recorded
here. -/
inductive TransportOutcome where
  | response (data : Option GQResponse) (errors : Option (List GQLError))
  | rejected (stack : String)
deriving DecidableEq, Repr

/-- One observable step of the orchestration: issuing the network fetch,
or dispatching an action to the reducer. -/
inductive Step where
  | fetch (req : FetchRequest)
  | dispatch (a : Action)
deriving DecidableEq, Repr

/-- JavaScript falsiness of the optional `cursor: string` argument, as
tested by `if (!cursor)` at App.tsx:138: `undefined` and the empty
string are falsy, every other string is truthy. -/
def jsFalsy : Option String → Bool
  | none => true
  | some s => s == ""

/-- V8 rendering of `Error.prototype.stack` for `Error(message)` thrown
at App.tsx:135: the string `"Error: " ++ message` followed by the call
frames. The frames depend on the call site, so they are a parameter. -/
def v8Stack (frames : String) (message : String) : String :=
  "Error: " ++ message ++ frames

/-- App.tsx:132-134: `errors.map(error => `[$\x7berror.type\x7d]
$\x7berror.message\x7d`).join(', ')`. -/
def formatErrors (errors : List GQLError) : String :=
  String.intercalate ", "
    (errors.map (fun e => "[" ++ e.type ++ "] " ++ e.message))

/-- `onFetchRepos` (App.tsx:121-146) as the ordered trace of observable
steps it performs, given the transport outcome.  It issues the fetch,
then: if the body's `errors` field is present (any non-`undefined` value,
per `if (errors)`) it throws `Error(joined message)`, which the `catch`
turns into `dispatch({type:'error', error: error.stack})` — `stackOf`
is the engine's stack rendering for that thrown `Error`; if the promise
rejected, the caught exception's `.stack` is dispatched; if `errors` is
absent but `data` is `undefined`, reading `data.organization` throws a
TypeError whose `.stack` is `tyErrStack`; otherwise it dispatches
`'init'` or `'more'` with `data.organization` according to `!cursor`.
No `{type:'request'}` action appears anywhere in the source. -/
def onFetchRepos (stackOf : String → String) (tyErrStack : String)
    (search : String) (limit : Nat) (cursor : Option String)
    (outcome : TransportOutcome) : List Step :=
  Step.fetch ⟨search, limit, cursor⟩ ::
    match outcome with
    | TransportOutcome.rejected stack => [Step.dispatch (Action.error stack)]
    | TransportOutcome.response data errors =>
        match errors with
        | some errs => [Step.dispatch (Action.error (stackOf (formatErrors errs)))]
        | none =>
            match data with
            | none => [Step.dispatch (Action.error tyErrStack)]
            | some org =>
                if jsFalsy cursor then [Step.dispatch (Action.init org)]
                else [Step.dispatch (Action.more org)]

/-- `onFetchMoreRepos` (App.tsx:148-152): if the current state is not
`'success'` it returns immediately (empty trace — no fetch, no
dispatch); otherwise it calls `onFetchRepos(query, 4, endCursor)` with
the stored cursor. -/
def onFetchMoreRepos (stackOf : String → String) (tyErrStack : String)
    (query : String) (state : State) (outcome : TransportOutcome) : List Step :=
  match state with
  | State.success d =>
      onFetchRepos stackOf tyErrStack query 4
        (some d.repositories.pageInfo.endCursor) outcome
  | _ => []

/-- The actions dispatched along a trace, in order. -/
def dispatches : List Step → List Action
  | [] => []
  | Step.fetch _ :: rest => dispatches rest
  | Step.dispatch a :: rest => a :: dispatches rest

/-- States reachable from the initial `{status:'empty'}` state
(App.tsx:114) by reducer transitions with arbitrary action payloads. -/
inductive Reachable : State → Prop where
  | empty : Reachable State.empty
  | step (s : State) (a : Action) : Reachable s → Reachable (reducer s a)

/-- The page-bound property of a success payload: the accumulated
`edges` do not outnumber the server-reported `totalCount`. -/
def entriesBound (d : GQResponse) : Prop :=
  d.repositories.edges.length ≤ d.repositories.totalCount

/-- States reachable from `{status:'empty'}` when the success payloads
are constrained to what a well-behaved server produces: a first page
satisfies the bound on its own, and a next page reports a `totalCount`
that covers the entries accumulated so far plus the new ones. -/
inductive ReachableWF : State → Prop where
  | empty : ReachableWF State.empty
  | request (s : State) : ReachableWF s → ReachableWF (reducer s Action.request)
  | initEv (s : State) (d : GQResponse) : ReachableWF s → entriesBound d →
      ReachableWF (reducer s (Action.init d))
  | moreEv (s : State) (d : GQResponse) : ReachableWF s →
      (∀ old, s = State.success old →
        old.repositories.edges.length + d.repositories.edges.length ≤
          d.repositories.totalCount) →
      ReachableWF (reducer s (Action.more d))
  | errEv (s : State) (m : String) : ReachableWF s →
      ReachableWF (reducer s (Action.error m))

/-- A sample repository node ("Hello-World") for concrete instances. -/
def sampleNode : RepoNode :=
  ⟨"MDEwOlJlcG9zaXRvcnkx", "Hello-World", false, 3, some "My first repository", "2011-01-26"⟩

/-- A second sample node for concrete instances. -/
def sampleNode2 : RepoNode :=
  ⟨"MDEwOlJlcG9zaXRvcnky", "Spoon-Knife", true, 7, none, "2011-01-27"⟩

/-- A sample successful organization payload: totalCount 5, one edge. -/
def sampleOrg : GQResponse :=
  ⟨"octocat", "https://github.com/octocat", ⟨5, ⟨"c1", true⟩, [⟨sampleNode⟩]⟩⟩

/-- A payload violating the entries bound: `totalCount` 0 but one edge. -/
def badOrg : GQResponse :=
  ⟨"octocat", "https://github.com/octocat", ⟨0, ⟨"c1", true⟩, [⟨sampleNode⟩]⟩⟩

/-- The GraphQL error entry used in concrete error scenarios. -/
def notFoundError : GQLError :=
  ⟨"NOT_FOUND", "Could not resolve to an Organization with the login of octokat."⟩

theorem R.concat_eq_append {α : Type} (xs ys : List α) :
    R.concat xs ys = xs ++ ys := by
  induction xs with
  | nil => rfl
  | cons x xs ih => simp [R.concat, ih]

/-- Claim C1: from `Succeeded(R1)`, the `'more'` event with payload `R2`
yields `Succeeded` whose entries are `R1.entries ++ R2.entries` (order
preserved, no deduplication) and whose `name`, `url`, `totalCount`,
`endCursor` and `hasNextPage` all come from `R2`. -/
theorem claim_C1_next_page_merges (R1 R2 : GQResponse) :
    reducer (State.success R1) (Action.more R2) =
      State.success
        ⟨R2.name, R2.url,
          ⟨R2.repositories.totalCount, R2.repositories.pageInfo,
            R1.repositories.edges ++ R2.repositories.edges⟩⟩ := by
  simp [reducer, R.concat_eq_append]

/-- Claim C2: the merge used by the `'more'` branch (`R.concat`) is pure
list concatenation: `merge(xs, ys) = xs ++ ys` for all lists, and in
particular `merge([], [a,b]) = [a,b]`, `merge([a,b], [c]) = [a,b,c]`,
and `merge([a,b], [a,b]) = [a,b,a,b]` with duplicates preserved. -/
theorem claim_C2_merge_is_concatenation :
    (∀ (α : Type) (xs ys : List α), R.concat xs ys = xs ++ ys) ∧
    (∀ a b : RepoEdge, R.concat ([] : List RepoEdge) [a, b] = [a, b]) ∧
    (∀ a b c : RepoEdge, R.concat [a, b] [c] = [a, b, c]) ∧
    (∀ a b : RepoEdge, R.concat [a, b] [a, b] = [a, b, a, b]) := by
  refine ⟨fun α xs ys => R.concat_eq_append xs ys, ?_, ?_, ?_⟩ <;>
    intros <;> simp [R.concat_eq_append]

/-- Claim C3: when the current state is not `'success'` (empty, loading
or error), the `'more'` event is a no-op: the reducer returns the state
unchanged.  The reducer is a total Lean function, so no branch can raise
an error. -/
theorem claim_C3_more_noop_when_not_success (s : State) (d : GQResponse)
    (h : s.isSuccess = false) :
    reducer s (Action.more d) = s := by
  cases s <;> simp_all [reducer, State.isSuccess]

/-- Witness for claim C3 at the concrete state `Failed("boom")`. -/
theorem claim_C3_witness :
    (State.error "boom").isSuccess = false ∧
      reducer (State.error "boom") (Action.more sampleOrg) = State.error "boom" :=
  ⟨rfl, claim_C3_more_noop_when_not_success (State.error "boom") sampleOrg rfl⟩

/-- Counterexample to claim C4 as stated: with a `NOT_FOUND` error entry
(and even a `data` payload alongside), the dispatched error string is
the V8 stack of the thrown `Error` — `"Error: "` plus the joined
message plus the call frames — which differs from the joined
`"[type] message"` format the claim requires exactly. -/
theorem claim_C4_counterexample :
    dispatches
        (onFetchRepos (v8Stack " at onFetchRepos (App.tsx:135)") "TypeError"
          "octokat" 4 none
          (TransportOutcome.response (some sampleOrg) (some [notFoundError]))) =
      [Action.error
        ("Error: [NOT_FOUND] Could not resolve to an Organization with the login of octokat. at onFetchRepos (App.tsx:135)")] ∧
    formatErrors [notFoundError] =
      "[NOT_FOUND] Could not resolve to an Organization with the login of octokat." ∧
    ("Error: [NOT_FOUND] Could not resolve to an Organization with the login of octokat. at onFetchRepos (App.tsx:135)" : String) ≠
      "[NOT_FOUND] Could not resolve to an Organization with the login of octokat." := by
  refine ⟨rfl, rfl, ?_⟩
  decide

/-- Claim C4 as amended: whenever the GraphQL body carries an `errors`
field — regardless of any `data` payload alongside — the orchestration
discards the data and the dispatched events drive the reducer, from any
state, to `Failed` whose string is the engine stack rendering of the
`Error` thrown with the entries formatted `"[type] message"` and joined
with `", "` (not the bare joined message itself). -/
theorem claim_C4_errors_take_precedence (stackOf : String → String)
    (tyErrStack search : String) (limit : Nat) (cursor : Option String)
    (data : Option GQResponse) (errs : List GQLError) (s : State) :
    (dispatches
        (onFetchRepos stackOf tyErrStack search limit cursor
          (TransportOutcome.response data (some errs)))).foldl reducer s =
      State.error (stackOf (formatErrors errs)) := by
  simp [onFetchRepos, dispatches, reducer]

/-- Claim C5 evidence: at the concrete first-page invocation the full
observable trace is the network fetch followed by the single `'init'`
dispatch — no `{type:'request'}` action is ever dispatched, before the
call or at all, and each invocation dispatches exactly one completion
action. -/
theorem claim_C5_no_request_dispatched :
    (onFetchRepos (v8Stack "") "TypeError" "the-road-to-learn-react" 4 none
        (TransportOutcome.response (some sampleOrg) none) =
      [Step.fetch ⟨"the-road-to-learn-react", 4, none⟩,
        Step.dispatch (Action.init sampleOrg)]) ∧
    (∀ (stackOf : String → String) (tyErrStack search : String) (limit : Nat)
        (cursor : Option String) (outcome : TransportOutcome),
      Step.dispatch Action.request ∉
          onFetchRepos stackOf tyErrStack search limit cursor outcome ∧
        (dispatches
            (onFetchRepos stackOf tyErrStack search limit cursor outcome)).length =
          1) := by
  refine ⟨rfl, ?_⟩
  intro stackOf tyErrStack search limit cursor outcome
  cases outcome with
  | rejected stack => simp [onFetchRepos, dispatches]
  | response data errors =>
    cases errors with
    | some errs => simp [onFetchRepos, dispatches]
    | none =>
      cases data with
      | none => simp [onFetchRepos, dispatches]
      | some org =>
        by_cases h : jsFalsy cursor <;> simp [onFetchRepos, dispatches, h]

/-- Counterexample to claim C6 as stated: a cursor argument IS supplied
(`some ""`), yet the orchestration dispatches `'init'`, not `'more'`,
because the choice is made by JavaScript truthiness of the cursor. -/
theorem claim_C6_counterexample :
    dispatches
        (onFetchRepos (v8Stack "") "TypeError" "octocat" 4 (some "")
          (TransportOutcome.response (some sampleOrg) none)) =
      [Action.init sampleOrg] ∧
    [Action.init sampleOrg] ≠ [Action.more sampleOrg] := by
  refine ⟨rfl, ?_⟩
  simp

/-- Claim C6 as amended: on a successful response the choice between
`'init'` and `'more'` depends only on the cursor argument, by JavaScript
truthiness: an absent or empty-string cursor yields `'init'`, any other
supplied cursor yields `'more'`; no other input or state enters the
decision. -/
theorem claim_C6_cursor_truthiness (stackOf : String → String)
    (tyErrStack search : String) (limit : Nat) (cursor : Option String)
    (org : GQResponse) :
    dispatches
        (onFetchRepos stackOf tyErrStack search limit cursor
          (TransportOutcome.response (some org) none)) =
      (if cursor = none ∨ cursor = some "" then [Action.init org]
        else [Action.more org]) := by
  cases cursor with
  | none => simp [onFetchRepos, dispatches, jsFalsy]
  | some s => by_cases h : s = "" <;> simp [onFetchRepos, dispatches, jsFalsy, h]

/-- Claim C7: the `'request'` event sends every state — empty, loading,
failed or succeeded — to `Loading`, which carries no payload. -/
theorem claim_C7_request_always_loading (s : State) :
    reducer s Action.request = State.loading := rfl

/-- Counterexample to claim C8 as stated: with arbitrary event payloads
the state `Succeeded(badOrg)` — one entry but `totalCount` 0 — is
reachable from `Empty` in one `'init'` step, and it violates
`entries.length ≤ totalCount`; the reducer never checks the bound. -/
theorem claim_C8_counterexample :
    Reachable (State.success badOrg) ∧
      ¬ badOrg.repositories.edges.length ≤ badOrg.repositories.totalCount := by
  constructor
  · exact Reachable.step State.empty (Action.init badOrg) Reachable.empty
  · decide

/-- Claim C8 as amended: along every run from `Empty` whose success
payloads are well-formed — each first page satisfies
`entries.length ≤ totalCount`, and each next page applied to
`Succeeded(old)` reports `totalCount ≥ old.entries.length +
new.entries.length` — every `Succeeded` state satisfies
`entries.length ≤ totalCount`.  The reducer itself preserves but does
not enforce the bound. -/
theorem claim_C8_entries_bound_wf :
    ∀ (s : State), ReachableWF s → ∀ (d : GQResponse),
      s = State.success d →
        d.repositories.edges.length ≤ d.repositories.totalCount := by
  intro s hs
  induction hs with
  | empty => intro d hd; exact State.noConfusion hd
  | request s' _ _ => intro d hd; exact State.noConfusion hd
  | initEv s' d0 _ hb _ =>
      intro d hd
      injection hd with h
      subst h
      exact hb
  | moreEv s' d0 _ hbound ih =>
      intro d hd
      cases s' with
      | success old =>
          injection hd with h
          subst h
          simpa [R.concat_eq_append] using hbound old rfl
      | empty => exact State.noConfusion hd
      | loading => exact State.noConfusion hd
      | error m => exact State.noConfusion hd
  | errEv s' m _ _ => intro d hd; exact State.noConfusion hd

/-- Witness for claim C8 at the concrete run `Empty --init sampleOrg-->
Succeeded(sampleOrg)`, whose payload satisfies the page bound 1 ≤ 5. -/
theorem claim_C8_witness :
    sampleOrg.repositories.edges.length ≤ sampleOrg.repositories.totalCount :=
  claim_C8_entries_bound_wf (State.success sampleOrg)
    (ReachableWF.initEv State.empty sampleOrg ReachableWF.empty
      (by unfold entriesBound; decide))
    sampleOrg rfl

/-- Claim C9: when the current state is not `'success'`,
`onFetchMoreRepos` returns before doing anything: its observable trace
is empty — no network fetch is issued and no action is dispatched, so
the state is left unchanged. -/
theorem claim_C9_more_noop_when_not_success (stackOf : String → String)
    (tyErrStack query : String) (s : State) (outcome : TransportOutcome)
    (h : s.isSuccess = false) :
    onFetchMoreRepos stackOf tyErrStack query s outcome = [] := by
  cases s <;> simp_all [onFetchMoreRepos, State.isSuccess]

/-- Witness for claim C9 at the concrete state `Empty`. -/
theorem claim_C9_witness :
    State.empty.isSuccess = false ∧
      onFetchMoreRepos (v8Stack "") "TypeError" "octocat" State.empty
        (TransportOutcome.rejected "network down") = [] :=
  ⟨rfl,
    claim_C9_more_noop_when_not_success (v8Stack "") "TypeError" "octocat"
      State.empty (TransportOutcome.rejected "network down") rfl⟩

/-- Claim C10: a call whose cursor is the empty string is treated as a
first-page query: `if (!cursor)` is taken because the empty string is
falsy, so the single dispatched action is `'init'`, never `'more'`. -/
theorem claim_C10_empty_cursor_is_first_page (stackOf : String → String)
    (tyErrStack search : String) (limit : Nat) (org : GQResponse) :
    dispatches
        (onFetchRepos stackOf tyErrStack search limit (some "")
          (TransportOutcome.response (some org) none)) = [Action.init org] := by
  simp [onFetchRepos, dispatches, jsFalsy]

end App
